import Mathlib

/-!
Verification of the scraper core of `scholar` (`src/scrape.rs`).

The development shallowly embeds the Rust source:

* strings are `List Char`;
* the two compiled regular expressions (`(cluster|cites)=(\d+)` and
  `[^\d]+(\d+)`) are embedded as explicit leftmost-match scanners;
* the `select` crate's document is embedded as an index arena
  (`Document`), nodes referred to by index, with parent / children
  links exactly as the crate stores them; predicates (`Attr`, `Class`,
  `Name`, `Text`, `child`, `descendant`, `or`) are boolean functions on
  a document and a node index;
* Rust `Result` values become `Outcome` (`ok` / `err`); a `panic!`
  arising from `Option::unwrap` / `Result::unwrap` becomes the
  distinguished `Outcome.crashed` value.
-/

/-! ## Characters and digit classes -/

/-- The Unicode `Nd` (decimal number) general category, as closed
codepoint ranges.  The Rust `regex` crate's `\d` matches exactly this
class (Unicode-aware by default). -/
def ndRanges : List (Nat × Nat) := [(48, 57), (1632, 1641), (1776, 1785), (1984, 1993), (2406, 2415), (2534, 2543), (2662, 2671), (2790, 2799), (2918, 2927), (3046, 3055), (3174, 3183), (3302, 3311), (3430, 3439), (3558, 3567), (3664, 3673), (3792, 3801), (3872, 3881), (4160, 4169), (4240, 4249), (6112, 6121), (6160, 6169), (6470, 6479), (6608, 6617), (6784, 6793), (6800, 6809), (6992, 7001), (7088, 7097), (7232, 7241), (7248, 7257), (42528, 42537), (43216, 43225), (43264, 43273), (43472, 43481), (43504, 43513), (43600, 43609), (44016, 44025), (65296, 65305), (66720, 66729), (68912, 68921), (69734, 69743), (69872, 69881), (69942, 69951), (70096, 70105), (70384, 70393), (70736, 70745), (70864, 70873), (71248, 71257), (71360, 71369), (71472, 71481), (71904, 71913), (72016, 72025), (72784, 72793), (73040, 73049), (73120, 73129), (92768, 92777), (92864, 92873), (93008, 93017), (120782, 120831), (123200, 123209), (123632, 123641), (125264, 125273), (130032, 130041)]

/-- `\d` of the source's regular expressions: membership in `Nd`. -/
def isDig (c : Char) : Bool :=
  ndRanges.any (fun r => r.1 ≤ c.val.toNat && c.val.toNat ≤ r.2)

/-- The digit class accepted by Rust's `str::parse` for unsigned
integers: ASCII `0`–`9` only. -/
def isAsciiDigit (c : Char) : Bool :=
  48 ≤ c.val.toNat && c.val.toNat ≤ 57

/-- Numeric value of a run of ASCII digits (base 10). -/
def digitsVal (ds : List Char) : Nat :=
  ds.foldl (fun a c => 10 * a + (c.val.toNat - 48)) 0

/-- Rust `str::parse::<u64>`: succeeds on a non-empty all-ASCII-digit
string whose value fits in 64 bits. -/
def parseU64 (ds : List Char) : Option Nat :=
  if ds ≠ [] ∧ (∀ c ∈ ds, isAsciiDigit c = true) ∧ digitsVal ds < 2 ^ 64 then
    some (digitsVal ds)
  else none

/-- Rust `str::parse::<u32>`: succeeds on a non-empty all-ASCII-digit
string whose value fits in 32 bits. -/
def parseU32 (ds : List Char) : Option Nat :=
  if ds ≠ [] ∧ (∀ c ∈ ds, isAsciiDigit c = true) ∧ digitsVal ds < 2 ^ 32 then
    some (digitsVal ds)
  else none

/-! ## The two regular expressions -/

/-- The literal characters of the first alternative key of
`(cluster|cites)=`. -/
def clusterKey : List Char := ['c', 'l', 'u', 's', 't', 'e', 'r', '=']

/-- The literal characters of the second alternative key of
`(cluster|cites)=`. -/
def citesKey : List Char := ['c', 'i', 't', 'e', 's', '=']

/-- Strip a literal prefix, returning the rest of the string on
success. -/
def stripKey : List Char → List Char → Option (List Char)
  | [], s => some s
  | _ :: _, [] => none
  | a :: as, b :: bs => if a = b then stripKey as bs else none

/-- Attempt `(cluster|cites)=` at the current position; the regex tries
the alternatives in order of appearance. -/
def matchKeyAt (s : List Char) : Option (List Char) :=
  match stripKey clusterKey s with
  | some rest => some rest
  | none => stripKey citesKey s

/-- Leftmost match of `(cluster|cites)=(\d+)`: scan positions left to
right; at the first position where a key is followed by at least one
digit, capture the maximal digit run (group 2). -/
def findIdCapture : List Char → Option (List Char)
  | [] => none
  | c :: cs =>
    match matchKeyAt (c :: cs) with
    | some rest =>
      if (rest.takeWhile isDig).isEmpty then findIdCapture cs
      else some (rest.takeWhile isDig)
    | none => findIdCapture cs

/-- `(cluster|cites)=(\d+)` matches at the very start of `s`. -/
def idTokenAt (s : List Char) : Bool :=
  match matchKeyAt s with
  | some rest => !(rest.takeWhile isDig).isEmpty
  | none => false

/-- Leftmost match of `[^\d]+(\d+)`: the match starts at the first
non-digit position after which a digit still occurs; group 1 is the
maximal digit run after the maximal non-digit run from there. -/
def findCountCapture : List Char → Option (List Char)
  | [] => none
  | c :: cs =>
    if isDig c then findCountCapture cs
    else
      match (c :: cs).dropWhile (fun x => !(isDig x)) with
      | [] => none
      | d :: ds => some ((d :: ds).takeWhile isDig)

/-! ## Errors and outcomes -/

/-- The error kinds reachable from the scraper: `ErrorKind::BadHtml`
(raised by the `try_html!` macro for every missing node / regex
mismatch) and the `ParseIntError` foreign link (a matched digit run
not convertible to the target integer type). -/
inductive ScrapeError where
  | badHtml
  | parseIntError
deriving DecidableEq, Repr

/-- Result of running a piece of Rust code: a value, an `Err` value, or
a panic (from `unwrap` on `None` / `Err`). -/
inductive Outcome (α : Type) where
  | ok (a : α)
  | err (e : ScrapeError)
  | crashed
deriving DecidableEq, Repr

/-- `parse_id_from_url`: first match of `(cluster|cites)=(\d+)`, group 2
parsed as `u64` with `?` (so a conversion failure is an error value). -/
def parse_id_from_url (url : List Char) : Except ScrapeError Nat :=
  match findIdCapture url with
  | none => .error .badHtml
  | some ds =>
    match parseU64 ds with
    | none => .error .parseIntError
    | some v => .ok v

/-- `parse_citation_count`: first match of `[^\d]+(\d+)`, group 1 parsed
as `u32` with `.unwrap()` — a conversion failure panics. -/
def parse_citation_count (text : List Char) : Outcome Nat :=
  match findCountCapture text with
  | none => .err .badHtml
  | some ds =>
    match parseU32 ds with
    | none => .crashed
    | some v => .ok v

/-! ## The document arena (the `select` crate's `Document`) -/

/-- Node payload: an element (name and attributes), a raw text node,
or a comment. Attribute values and text data are character lists. -/
inductive NodeData where
  | elem (name : String) (attrs : List (String × List Char))
  | textNode (s : List Char)
  | comment (s : List Char)
deriving DecidableEq, Repr

/-- One arena slot: payload plus parent / children links, as stored by
the `select` crate. In a parsed document a parent always precedes its
children (smaller index) and index order is document order. -/
structure RawNode where
  data : NodeData
  parent : Option Nat
  children : List Nat
deriving DecidableEq, Repr

/-- A parsed document: the node arena. -/
structure Document where
  nodes : List RawNode
deriving DecidableEq, Repr

/-- The raw node at index `i`, if in range. -/
def dataOf (doc : Document) (i : Nat) : Option NodeData :=
  (doc.nodes.get? i).map RawNode.data

/-- `Node::parent` (as an index). -/
def parentOf (doc : Document) (i : Nat) : Option Nat :=
  (doc.nodes.get? i).bind RawNode.parent

/-- `Node::children` (as indices, in stored order). -/
def childrenOf (doc : Document) (i : Nat) : List Nat :=
  ((doc.nodes.get? i).map RawNode.children).getD []

/-- `Node::name`: `some` element name, `none` for text and comments. -/
def nameOf (doc : Document) (i : Nat) : Option String :=
  match dataOf doc i with
  | some (.elem n _) => some n
  | _ => none

/-- `Node::attr`: attribute lookup on elements (first binding wins),
`none` on text and comments. -/
def attrOf (doc : Document) (i : Nat) (key : String) : Option (List Char) :=
  match dataOf doc i with
  | some (.elem _ attrs) => attrs.lookup key
  | _ => none

/-- Fuelled parent walk: each step moves to the stored parent provided
its index is strictly smaller (the `p < i` guard makes the walk total;
it holds in every parsed document because a parent precedes its
children). -/
def ancChainFuel (doc : Document) : Nat → Nat → List Nat
  | 0, _ => []
  | fuel + 1, i =>
    match parentOf doc i with
    | some p => if p < i then p :: ancChainFuel doc fuel p else []
    | none => []

/-- The chain of (indices of) ancestors of node `i`, nearest first.
Fuel `i + 1` always suffices because the walk strictly decreases the
index. -/
def ancChain (doc : Document) (i : Nat) : List Nat :=
  ancChainFuel doc (i + 1) i

/-- Predicates of the `select` crate: a boolean function of a document
and a node index. -/
abbrev NodePred := Document → Nat → Bool

/-- `Attr(key, value)`: element carrying the attribute with exactly the
given value. -/
def pAttr (key : String) (value : List Char) : NodePred := fun doc i =>
  attrOf doc i key == some value

/-- `Class(c)`: element whose `class` attribute, split on whitespace,
contains `c`. -/
def pClass (c : String) : NodePred := fun doc i =>
  match attrOf doc i "class" with
  | some v => (wordsOf v).any (fun w => w == c.toList)
  | none => false
where
  /-- `str::split_whitespace`. -/
  wordsAux : List Char → List Char → List (List Char)
    | [], acc => if acc.isEmpty then [] else [acc.reverse]
    | c :: cs, acc =>
      if c.isWhitespace then
        if acc.isEmpty then wordsAux cs [] else acc.reverse :: wordsAux cs []
      else wordsAux cs (c :: acc)
  wordsOf (s : List Char) : List (List Char) := wordsAux s []

/-- `Name(n)`: element with the given name. -/
def pName (n : String) : NodePred := fun doc i =>
  nameOf doc i == some n

/-- `Text`: a raw text node. -/
def pText : NodePred := fun doc i =>
  match dataOf doc i with
  | some (.textNode _) => true
  | _ => false

/-- `A.child(B)`: `B` matches the node and `A` matches its parent. -/
def pChild (a b : NodePred) : NodePred := fun doc i =>
  b doc i && (match parentOf doc i with
              | some p => a doc p
              | none => false)

/-- `A.descendant(B)`: `B` matches the node and `A` matches some
ancestor. -/
def pDescendant (a b : NodePred) : NodePred := fun doc i =>
  b doc i && (ancChain doc i).any (fun p => a doc p)

/-- `A.or(B)`. -/
def pOr (a b : NodePred) : NodePred := fun doc i =>
  a doc i || b doc i

/-- `Document::find`: every node of the document, in document order,
matching the predicate. -/
def docFind (doc : Document) (p : NodePred) : List Nat :=
  (List.range doc.nodes.length).filter (p doc)

/-- `Node::find`: every strict descendant of node `i`, in document
order, matching the predicate. -/
def findUnder (doc : Document) (i : Nat) (p : NodePred) : List Nat :=
  ((List.range doc.nodes.length).filter
    (fun j => (ancChain doc j).contains i)).filter (p doc)

/-- `Selection::children` of the one-node selection `{i}` (`children()`
then `into_selection()`): the set of direct children as a selection,
i.e. in index (document) order, deduplicated. -/
def selChildrenOf (doc : Document) (i : Nat) : List Nat :=
  (List.range doc.nodes.length).filter (fun j => (childrenOf doc i).contains j)

/-- `Node::text` with explicit recursion fuel: text nodes contribute
their data, elements recurse over their stored children, comments
contribute nothing. With fuel `doc.nodes.length` this computes
`Node::text` on every parsed document (depth is bounded by size). -/
def textFuel (doc : Document) : Nat → Nat → List Char
  | 0, _ => []
  | fuel + 1, i =>
    match dataOf doc i with
    | some (.textNode s) => s
    | some (.comment _) => []
    | some (.elem _ _) => ((childrenOf doc i).map (textFuel doc fuel)).flatten
    | none => []

/-- `Node::text`. -/
def textContent (doc : Document) (i : Nat) : List Char :=
  textFuel doc doc.nodes.length i

/-- `str::trim`. -/
def trimChars (s : List Char) : List Char :=
  ((s.dropWhile Char.isWhitespace).reverse.dropWhile Char.isWhitespace).reverse

/-! ## The `Paper` record -/

/-- The scraped bibliographic record (`paper::Paper`). `citers` nests
further papers, so `Paper` is an inductive type. -/
inductive Paper where
  | mk (title : List Char) (id : Nat) (citation_count : Option Nat)
      (citers : Option (List Paper))

/-- Title field. -/
def Paper.title : Paper → List Char
  | .mk t _ _ _ => t

/-- Cluster-identifier field (`u64` value). -/
def Paper.id : Paper → Nat
  | .mk _ i _ _ => i

/-- Citation-count field (`Option<u32>` value). -/
def Paper.citation_count : Paper → Option Nat
  | .mk _ _ c _ => c

/-- Citers field. -/
def Paper.citers : Paper → Option (List Paper)
  | .mk _ _ _ cs => cs

/-! ## `SearchDocument` scraping -/

/-- Branch 1 of `scrape_title`:
`node.find(Class("gs_rt").child(Name("a"))).nth(0)` — the first strict
descendant of `i` that is an `a` element whose parent has class
`gs_rt`. -/
def titleAnchor (doc : Document) (i : Nat) : Option Nat :=
  (findUnder doc i (pChild (pClass "gs_rt") (pName "a"))).head?

/-- Branch 2 of `scrape_title`:
`node.find(Class("gs_rt")).into_selection().children()` filtered by the
closure keeping nodes that are not named `span` — children (selection
semantics: index order, deduplicated) of the `gs_rt` descendants of
`i`, with `span` elements discarded. -/
def titleChildren (doc : Document) (i : Nat) : List Nat :=
  ((List.range doc.nodes.length).filter
    (fun j => (findUnder doc i (pClass "gs_rt")).any
      (fun g => (childrenOf doc g).contains j))).filter
    (fun j => match nameOf doc j with
              | some name => name != "span"
              | none => true)

/-- `SearchDocument::scrape_title`: the anchor's text if branch 1
matches, otherwise the concatenated text of the branch-2 children,
trimmed. Total — no error path. -/
def scrape_title (doc : Document) (i : Nat) : List Char :=
  match titleAnchor doc i with
  | some n => textContent doc n
  | none =>
    trimChars (((titleChildren doc i).map (textContent doc)).flatten)

/-- `node.find(Class("gs_fl")).nth(0)`: the footer region of the paper
node. -/
def footerNode (doc : Document) (i : Nat) : Option Nat :=
  (findUnder doc i (pClass "gs_fl")).head?

/-- The filter closure over the footer's children: the node carries an
`href` attribute from which `parse_id_from_url` succeeds. -/
def citationPred (doc : Document) (j : Nat) : Bool :=
  match attrOf doc j "href" with
  | some url =>
    match parse_id_from_url url with
    | .ok _ => true
    | .error _ => false
  | none => false

/-- `footers.into_selection().filter(..).first()`: first child (in
document order) of footer `f` whose `href` parses as an identifier. -/
def citationNodeIn (doc : Document) (f : Nat) : Option Nat :=
  ((selChildrenOf doc f).filter (citationPred doc)).head?

/-- `SearchDocument::scrape_id_and_citation`: footer lookup, filtered
child scan, then the two `unwrap`ed extractions (modelled as `crashed`
when they would panic) and the citation-count parse. -/
def scrape_id_and_citation (doc : Document) (i : Nat) : Outcome (Nat × Nat) :=
  match footerNode doc i with
  | none => .err .badHtml
  | some f =>
    match citationNodeIn doc f with
    | none => .err .badHtml
    | some c =>
      match attrOf doc c "href" with
      | none => .crashed
      | some url =>
        match parse_id_from_url url with
        | .error _ => .crashed
        | .ok id =>
          match parse_citation_count (textContent doc c) with
          | .err e => .err e
          | .crashed => .crashed
          | .ok count => .ok (id, count)

/-- `SearchDocument::scrape_paper_one`: one paper record from one
paper-summary node. -/
def scrape_paper_one (doc : Document) (i : Nat) : Outcome Paper :=
  match scrape_id_and_citation doc i with
  | .err e => .err e
  | .crashed => .crashed
  | .ok (id, c) => .ok (Paper.mk (scrape_title doc i) id (some c) none)

/-- The paper-summary nodes of a search-results page:
`Attr("id", "gs_res_ccl_mid").descendant(Class("gs_ri"))` over the
whole document, in document order. -/
def paperNodes (doc : Document) : List Nat :=
  docFind doc
    (pDescendant (pAttr "id" ("gs_res_ccl_mid".toList)) (pClass "gs_ri"))

/-- The `for`-loop of `scrape_papers`: extract each node in turn,
returning the first failure. -/
def scrapeList (doc : Document) : List Nat → Outcome (List Paper)
  | [] => .ok []
  | n :: ns =>
    match scrape_paper_one doc n with
    | .err e => .err e
    | .crashed => .crashed
    | .ok p =>
      match scrapeList doc ns with
      | .err e => .err e
      | .crashed => .crashed
      | .ok ps => .ok (p :: ps)

/-- `SearchDocument::scrape_papers`. -/
def scrape_papers (doc : Document) : Outcome (List Paper) :=
  scrapeList doc (paperNodes doc)

/-! ## `CitationDocument` scraping -/

/-- The header-title selector of `scrape_target_paper`:
`Attr("id", "gs_rt_hdr").child(Name("h2")).child(Name("a").or(Text))`. -/
def headerSel : NodePred :=
  pChild (pChild (pAttr "id" ("gs_rt_hdr".toList)) (pName "h2"))
    (pOr (pName "a") pText)

/-- `self.find(pos).nth(0)` of `scrape_target_paper`: the first node of
the document matching the header-title selector. -/
def headerTitleNode (doc : Document) : Option Nat :=
  (docFind doc headerSel).head?

/-- `CitationDocument::scrape_target_paper`. -/
def scrape_target_paper (doc : Document) : Outcome Paper :=
  match headerTitleNode doc with
  | none => .err .badHtml
  | some n =>
    match attrOf doc n "href" with
    | none => .err .badHtml
    | some url =>
      match parse_id_from_url url with
      | .error e => .err e
      | .ok id => .ok (Paper.mk (textContent doc n) id none none)

/-- `CitationDocument::scrape_target_paper_with_citers`: the target
paper with `citers` replaced by the scraped list (all other fields
kept, per the `..target_paper` struct update). -/
def scrape_target_paper_with_citers (doc : Document) : Outcome Paper :=
  match scrape_target_paper doc with
  | .err e => .err e
  | .crashed => .crashed
  | .ok t =>
    match scrape_papers doc with
    | .err e => .err e
    | .crashed => .crashed
    | .ok citers => .ok (Paper.mk t.title t.id t.citation_count (some citers))

/-! ## Concrete fixture documents -/

/-- A document with no nodes at all (no results container). -/
def emptyDoc : Document := ⟨[]⟩

/-- A minimal well-formed search-results page: one results container
holding one paper-summary block with a linked title and a footer whose
citation link is `/scholar?cites=12345` / `Cited by 42`. -/
def exSearchDoc : Document := ⟨[
  ⟨.elem "div" [("id", "gs_res_ccl_mid".toList)], none, [1]⟩,
  ⟨.elem "div" [("class", "gs_ri".toList)], some 0, [2, 5]⟩,
  ⟨.elem "h3" [("class", "gs_rt".toList)], some 1, [3]⟩,
  ⟨.elem "a" [("href", "http://paper.pdf".toList)], some 2, [4]⟩,
  ⟨.textNode "Quantum theory".toList, some 3, []⟩,
  ⟨.elem "div" [("class", "gs_fl".toList)], some 1, [6]⟩,
  ⟨.elem "a" [("href", "/scholar?cites=12345".toList)], some 5, [7]⟩,
  ⟨.textNode "Cited by 42".toList, some 6, []⟩]⟩

/-- A search-results page whose single paper-summary block has no
footer, so per-node extraction fails. -/
def exBadDoc : Document := ⟨[
  ⟨.elem "div" [("id", "gs_res_ccl_mid".toList)], none, [1]⟩,
  ⟨.elem "div" [("class", "gs_ri".toList)], some 0, []⟩]⟩

/-- A minimal citation page: a header whose `h2` holds a linked title
carrying the cluster identifier. There is no results container, so the
citer list scrapes as empty. -/
def exCitDoc : Document := ⟨[
  ⟨.elem "div" [("id", "gs_rt_hdr".toList)], none, [1]⟩,
  ⟨.elem "h2" [], some 0, [2]⟩,
  ⟨.elem "a" [("href", "/scholar?cluster=777".toList)], some 1, [3]⟩,
  ⟨.textNode "Electromagnetic potentials".toList, some 2, []⟩]⟩

/-- A citation page whose header title is a bare text node (no link). -/
def exC10Doc : Document := ⟨[
  ⟨.elem "div" [("id", "gs_rt_hdr".toList)], none, [1]⟩,
  ⟨.elem "h2" [], some 0, [2]⟩,
  ⟨.textNode "Electromagnetic potentials".toList, some 1, []⟩]⟩

/-- A paper node whose title container holds an anchor that is nested
inside a `span` (so not a direct child of the container). -/
def exC5Doc : Document := ⟨[
  ⟨.elem "div" [], none, [1]⟩,
  ⟨.elem "h3" [("class", "gs_rt".toList)], some 0, [2]⟩,
  ⟨.elem "span" [], some 1, [3]⟩,
  ⟨.elem "a" [("href", "http://x".toList)], some 2, [4]⟩,
  ⟨.textNode ['T'], some 3, []⟩]⟩

/-! ## Lemmas on the regular-expression scanners -/

theorem stripKey_append (k t : List Char) : stripKey k (k ++ t) = some t := by
  induction k with
  | nil => rfl
  | cons a as ih => simp [stripKey, ih]

theorem stripKey_cluster_of_cites (t : List Char) :
    stripKey clusterKey (citesKey ++ t) = none := by
  simp [clusterKey, citesKey, stripKey]

theorem matchKeyAt_key (key t : List Char)
    (hkey : key = clusterKey ∨ key = citesKey) :
    matchKeyAt (key ++ t) = some t := by
  rcases hkey with h | h <;> subst h
  · unfold matchKeyAt
    rw [stripKey_append]
  · unfold matchKeyAt
    rw [stripKey_cluster_of_cites, stripKey_append]

theorem takeWhile_append_eq (p : Char → Bool) (ds v : List Char)
    (hds : ∀ c ∈ ds, p c = true)
    (hv : ∀ c ∈ v.take 1, p c = false) :
    (ds ++ v).takeWhile p = ds := by
  induction ds with
  | nil =>
    cases v with
    | nil => rfl
    | cons x xs =>
      have hx : p x = false := hv x (by simp)
      simp [List.takeWhile, hx]
  | cons d ds ih =>
    have hd : p d = true := hds d (by simp)
    simp only [List.cons_append, List.takeWhile_cons, hd, if_true]
    rw [ih (fun c hc => hds c (by simp [hc]))]

theorem dropWhile_eq_nil (p : Char → Bool) (s : List Char)
    (hs : ∀ c ∈ s, p c = true) : s.dropWhile p = [] := by
  induction s with
  | nil => rfl
  | cons c cs ih =>
    have hc : p c = true := hs c (by simp)
    simp only [List.dropWhile_cons, hc, if_true]
    exact ih (fun x hx => hs x (by simp [hx]))

theorem dropWhile_append_eq (p : Char → Bool) (nd ds : List Char)
    (hnd : ∀ c ∈ nd, p c = true)
    (hds : ∀ c ∈ ds.take 1, p c = false) :
    (nd ++ ds).dropWhile p = ds := by
  induction nd with
  | nil =>
    cases ds with
    | nil => rfl
    | cons x xs =>
      have hx : p x = false := hds x (by simp)
      simp [List.dropWhile, hx]
  | cons c nd ih =>
    have hc : p c = true := hnd c (by simp)
    simp only [List.cons_append, List.dropWhile_cons, hc, if_true]
    exact ih (fun x hx => hnd x (by simp [hx]))

theorem isDig_of_isAsciiDigit (c : Char) (h : isAsciiDigit c = true) :
    isDig c = true := by
  simp only [isAsciiDigit, Bool.and_eq_true, decide_eq_true_eq] at h
  simp only [isDig, ndRanges, List.any_cons, Bool.or_eq_true, Bool.and_eq_true,
    decide_eq_true_eq]
  exact Or.inl ⟨h.1, h.2⟩

theorem findIdCapture_cons_no_token (c : Char) (cs : List Char)
    (h : idTokenAt (c :: cs) = false) :
    findIdCapture (c :: cs) = findIdCapture cs := by
  unfold idTokenAt at h
  rw [findIdCapture]
  cases hm : matchKeyAt (c :: cs) with
  | none => rfl
  | some rest =>
    rw [hm] at h
    simp only [Bool.not_eq_false'] at h
    simp [h]

theorem findIdCapture_skip (u t : List Char)
    (h : ∀ i, i < u.length → idTokenAt ((u ++ t).drop i) = false) :
    findIdCapture (u ++ t) = findIdCapture t := by
  induction u with
  | nil => rfl
  | cons c u ih =>
    have h0 : idTokenAt (c :: (u ++ t)) = false := by
      have := h 0 (by simp)
      simpa using this
    rw [List.cons_append, findIdCapture_cons_no_token _ _ h0]
    exact ih (fun i hi => by
      have := h (i + 1) (by simpa using Nat.succ_lt_succ hi)
      simpa using this)

theorem findIdCapture_key_start (key ds v : List Char)
    (hkey : key = clusterKey ∨ key = citesKey)
    (hds : ds ≠ [])
    (hdig : ∀ c ∈ ds, isDig c = true)
    (hv : ∀ c ∈ v.take 1, isDig c = false) :
    findIdCapture (key ++ (ds ++ v)) = some ds := by
  have hm : matchKeyAt (key ++ (ds ++ v)) = some (ds ++ v) :=
    matchKeyAt_key key (ds ++ v) hkey
  have htake : (ds ++ v).takeWhile isDig = ds :=
    takeWhile_append_eq isDig ds v hdig hv
  have hne : ((ds ++ v).takeWhile isDig).isEmpty = false := by
    rw [htake]
    cases ds with
    | nil => exact absurd rfl hds
    | cons d ds => rfl
  have hcons : ∃ c cs, key ++ (ds ++ v) = c :: cs := by
    rcases hkey with h | h <;> subst h
    · exact ⟨'c', _, rfl⟩
    · exact ⟨'c', _, rfl⟩
  rcases hcons with ⟨c, cs, hc⟩
  rw [hc] at hm ⊢
  rw [findIdCapture, hm]
  rw [htake] at hne
  simp [htake, hne]

theorem findIdCapture_no_token (s : List Char)
    (h : ∀ i, idTokenAt (s.drop i) = false) :
    findIdCapture s = none := by
  induction s with
  | nil => rfl
  | cons c cs ih =>
    have h0 : idTokenAt (c :: cs) = false := by simpa using h 0
    rw [findIdCapture_cons_no_token _ _ h0]
    exact ih (fun i => by simpa using h (i + 1))

theorem parse_id_capture_eq (u key ds v : List Char)
    (hkey : key = clusterKey ∨ key = citesKey)
    (hds : ds ≠ [])
    (hascii : ∀ c ∈ ds, isAsciiDigit c = true)
    (hv : ∀ c ∈ v.take 1, isDig c = false)
    (hu : ∀ i, i < u.length → idTokenAt ((u ++ (key ++ (ds ++ v))).drop i) = false) :
    findIdCapture (u ++ (key ++ (ds ++ v))) = some ds := by
  rw [findIdCapture_skip u _ hu]
  exact findIdCapture_key_start key ds v hkey hds
    (fun c hc => isDig_of_isAsciiDigit c (hascii c hc)) hv

theorem parse_id_from_url_capture (url ds : List Char)
    (h : findIdCapture url = some ds) :
    parse_id_from_url url =
      (match parseU64 ds with
       | none => .error .parseIntError
       | some v => .ok v) := by
  unfold parse_id_from_url
  rw [h]

theorem idTokenAt_nil : idTokenAt [] = false := rfl

theorem idTokenAt_all_of_bounded (s : List Char)
    (h : ∀ i, i < s.length → idTokenAt (s.drop i) = false) :
    ∀ i, idTokenAt (s.drop i) = false := by
  intro i
  by_cases hi : i < s.length
  · exact h i hi
  · rw [List.drop_eq_nil_of_le (Nat.le_of_not_lt hi)]
    exact idTokenAt_nil

/-- Claim C2: `parse_id_from_url` on a string whose first
`(cluster|cites)=<digits>` token sits after a token-free prefix returns
exactly that digit run as an unsigned 64-bit integer; on a string with
no such token anywhere it fails with the `BadHtml` (NoMatch) error; and
when the captured digit run does not fit in 64 bits the conversion
failure is returned as the `ParseIntError` error value, not silently
truncated. -/
theorem claim_c2_parse_id :
    (∀ u key ds v : List Char,
      (key = clusterKey ∨ key = citesKey) →
      ds ≠ [] →
      (∀ c ∈ ds, isAsciiDigit c = true) →
      (∀ c ∈ v.take 1, isDig c = false) →
      (∀ i, i < u.length → idTokenAt ((u ++ (key ++ (ds ++ v))).drop i) = false) →
      digitsVal ds < 2 ^ 64 →
      parse_id_from_url (u ++ (key ++ (ds ++ v))) = .ok (digitsVal ds))
  ∧ (∀ s : List Char,
      (∀ i, idTokenAt (s.drop i) = false) →
      parse_id_from_url s = .error .badHtml)
  ∧ (∀ u key ds v : List Char,
      (key = clusterKey ∨ key = citesKey) →
      ds ≠ [] →
      (∀ c ∈ ds, isAsciiDigit c = true) →
      (∀ c ∈ v.take 1, isDig c = false) →
      (∀ i, i < u.length → idTokenAt ((u ++ (key ++ (ds ++ v))).drop i) = false) →
      2 ^ 64 ≤ digitsVal ds →
      parse_id_from_url (u ++ (key ++ (ds ++ v))) = .error .parseIntError) := by
  refine ⟨?_, ?_, ?_⟩
  · intro u key ds v hkey hds hascii hv hu hlt
    rw [parse_id_from_url_capture _ ds
      (parse_id_capture_eq u key ds v hkey hds hascii hv hu)]
    have hp : parseU64 ds = some (digitsVal ds) := by
      unfold parseU64
      rw [if_pos ⟨hds, hascii, hlt⟩]
    rw [hp]
  · intro s hs
    unfold parse_id_from_url
    rw [findIdCapture_no_token s hs]
  · intro u key ds v hkey hds hascii hv hu hge
    rw [parse_id_from_url_capture _ ds
      (parse_id_capture_eq u key ds v hkey hds hascii hv hu)]
    have hp : parseU64 ds = none := by
      unfold parseU64
      exact if_neg (fun h => Nat.not_lt.mpr hge h.2.2)
    rw [hp]

/-- Witness for C2 at the fixture inputs of the source's own tests:
`scholar?cluster=654321&foo=bar` parses to `654321`, a 20-digit run
overflows `u64` into `ParseIntError`, and `claster=000000` has no
token. -/
theorem claim_c2_parse_id_witness :
    parse_id_from_url ("scholar?".toList ++ (clusterKey ++
        ("654321".toList ++ "&foo=bar".toList))) =
      .ok (digitsVal ("654321".toList)) ∧
    parse_id_from_url ([] ++ (citesKey ++ ("99999999999999999999".toList ++ ([] : List Char)))) =
      .error .parseIntError ∧
    parse_id_from_url ("claster=000000".toList) = .error .badHtml := by
  refine ⟨?_, ?_, ?_⟩
  · exact claim_c2_parse_id.1 ("scholar?".toList) clusterKey ("654321".toList)
      ("&foo=bar".toList) (Or.inl rfl) (by decide) (by decide) (by decide)
      (by decide) (by decide)
  · exact claim_c2_parse_id.2.2 [] citesKey ("99999999999999999999".toList) []
      (Or.inr rfl) (by decide) (by decide) (by decide) (by decide) (by decide)
  · exact claim_c2_parse_id.2.1 ("claster=000000".toList)
      (idTokenAt_all_of_bounded _ (by decide))

theorem takeWhile_eq_self (p : Char → Bool) (l : List Char)
    (h : ∀ c ∈ l, p c = true) : l.takeWhile p = l := by
  induction l with
  | nil => rfl
  | cons a as ih =>
    have ha := h a (by simp)
    simp only [List.takeWhile_cons, ha, if_true]
    rw [ih (fun c hc => h c (by simp [hc]))]

theorem parse_citation_count_capture (text ds : List Char)
    (h : findCountCapture text = some ds) :
    parse_citation_count text =
      (match parseU32 ds with
       | none => .crashed
       | some v => .ok v) := by
  unfold parse_citation_count
  rw [h]

/-- Claim C3: `parse_citation_count` on a non-empty non-digit prefix
(any script) immediately followed by a decimal digit run that fits in
32 bits returns exactly that run's value; on a text with no digit
anywhere it fails with the `BadHtml` (NoMatch) error. -/
theorem claim_c3_parse_count :
    (∀ nd ds : List Char,
      nd ≠ [] →
      (∀ c ∈ nd, isDig c = false) →
      ds ≠ [] →
      (∀ c ∈ ds, isAsciiDigit c = true) →
      digitsVal ds < 2 ^ 32 →
      parse_citation_count (nd ++ ds) = .ok (digitsVal ds))
  ∧ (∀ s : List Char,
      (∀ c ∈ s, isDig c = false) →
      parse_citation_count s = .err .badHtml) := by
  have hdrop : ∀ (nd ds : List Char), (∀ c ∈ nd, isDig c = false) →
      (∀ c ∈ ds.take 1, isDig c = true) →
      (nd ++ ds).dropWhile (fun x => !(isDig x)) = ds := by
    intro nd ds hnd hds
    exact dropWhile_append_eq _ nd ds
      (fun c hc => by rw [hnd c hc]; rfl)
      (fun c hc => by rw [hds c hc]; rfl)
  constructor
  · intro nd ds hnd hndd hds hascii hlt
    have hdig : ∀ c ∈ ds, isDig c = true :=
      fun c hc => isDig_of_isAsciiDigit c (hascii c hc)
    have hcap : findCountCapture (nd ++ ds) = some ds := by
      cases nd with
      | nil => exact absurd rfl hnd
      | cons c cs =>
        have hc : isDig c = false := hndd c (by simp)
        rw [List.cons_append, findCountCapture]
        rw [if_neg (by rw [hc]; exact Bool.false_ne_true)]
        rw [show ((c :: (cs ++ ds)).dropWhile (fun x => !(isDig x))) = ds from by
          rw [← List.cons_append]
          exact hdrop (c :: cs) ds hndd
            (fun x hx => hdig x (List.mem_of_mem_take hx))]
        cases ds with
        | nil => exact absurd rfl hds
        | cons d dtl =>
          exact congrArg some (takeWhile_eq_self isDig (d :: dtl) hdig)
    rw [parse_citation_count_capture _ ds hcap]
    have hp : parseU32 ds = some (digitsVal ds) := by
      unfold parseU32
      rw [if_pos ⟨hds, hascii, hlt⟩]
    rw [hp]
  · intro s hs
    have hcap : findCountCapture s = none := by
      cases s with
      | nil => rfl
      | cons c cs =>
        have hc : isDig c = false := hs c (by simp)
        rw [findCountCapture]
        rw [if_neg (by rw [hc]; exact Bool.false_ne_true)]
        rw [dropWhile_eq_nil _ _ (fun x hx => by rw [hs x hx]; rfl)]
    unfold parse_citation_count
    rw [hcap]

/-- Witness for C3 at the source's own test inputs: the
locale-agnostic `引用元 222` parses to `222`, and the digit-free `foo`
fails. -/
theorem claim_c3_parse_count_witness :
    parse_citation_count ("引用元 ".toList ++ "222".toList) =
      .ok (digitsVal ("222".toList)) ∧
    parse_citation_count ("foo".toList) = .err .badHtml := by
  constructor
  · exact claim_c3_parse_count.1 ("引用元 ".toList) ("222".toList)
      (by decide) (by decide) (by decide) (by decide) (by decide)
  · exact claim_c3_parse_count.2 ("foo".toList) (by decide)

/-- Claim C4 (code bug): when the matched digit run overflows `u32`,
`parse_citation_count` does not return a numeric-conversion error
value — the source calls `.parse().unwrap()` (scrape.rs line 239), so
it panics. The spec's propagation policy ("all failures are
value-returning") and the sibling `parse_id_from_url` (which uses `?`)
show the intent; the `unwrap` is the slip. At the failing input
`Cited by 4294967296` the run `4294967296 = 2^32` does not fit and the
call crashes instead of returning an error. -/
theorem claim_c4_count_overflow_crashes :
    parse_citation_count ("Cited by 4294967296".toList) = .crashed ∧
    digitsVal ("4294967296".toList) = 2 ^ 32 ∧
    (∀ e, parse_citation_count ("Cited by 4294967296".toList) ≠ .err e) := by
  refine ⟨by decide, by decide, ?_⟩
  intro e
  rw [show parse_citation_count ("Cited by 4294967296".toList) = .crashed from by decide]
  intro h
  exact Outcome.noConfusion h

/-! ## Lemmas on the per-node extraction loop -/

theorem scrape_paper_one_fields (doc : Document) (i : Nat) (p : Paper)
    (h : scrape_paper_one doc i = .ok p) :
    (∃ c, p.citation_count = some c) ∧ p.citers = none := by
  unfold scrape_paper_one at h
  cases hs : scrape_id_and_citation doc i with
  | err e => rw [hs] at h; exact Outcome.noConfusion h
  | crashed => rw [hs] at h; exact Outcome.noConfusion h
  | ok pr =>
    obtain ⟨id, c⟩ := pr
    rw [hs] at h
    simp only [Outcome.ok.injEq] at h
    rw [← h]
    exact ⟨⟨c, rfl⟩, rfl⟩

theorem scrapeList_ok (doc : Document) (ns : List Nat) (ps : List Paper)
    (h : scrapeList doc ns = .ok ps) :
    ps.length = ns.length ∧
    ∀ k (hk : k < ns.length) (hk' : k < ps.length),
      scrape_paper_one doc (ns.get ⟨k, hk⟩) = .ok (ps.get ⟨k, hk'⟩) := by
  induction ns generalizing ps with
  | nil =>
    rw [scrapeList] at h
    simp only [Outcome.ok.injEq] at h
    subst h
    exact ⟨rfl, fun k hk => absurd hk (by simp)⟩
  | cons n ns ih =>
    rw [scrapeList] at h
    cases h1 : scrape_paper_one doc n with
    | err e => rw [h1] at h; exact Outcome.noConfusion h
    | crashed => rw [h1] at h; exact Outcome.noConfusion h
    | ok p =>
      rw [h1] at h
      simp only at h
      cases h2 : scrapeList doc ns with
      | err e => rw [h2] at h; exact Outcome.noConfusion h
      | crashed => rw [h2] at h; exact Outcome.noConfusion h
      | ok ps' =>
        rw [h2] at h
        simp only [Outcome.ok.injEq] at h
        subst h
        obtain ⟨hlen, hidx⟩ := ih ps' h2
        refine ⟨by simp [hlen], ?_⟩
        intro k hk hk'
        cases k with
        | zero => simpa using h1
        | succ k =>
          simpa using hidx k (by simpa using hk) (by simpa using hk')

theorem scrapeList_first_err (doc : Document) (ns : List Nat) (k : Nat)
    (e : ScrapeError) (hk : k < ns.length)
    (hprev : ∀ j (hj : j < k),
      ∃ p, scrape_paper_one doc (ns.get ⟨j, Nat.lt_trans hj hk⟩) = .ok p)
    (hfail : scrape_paper_one doc (ns.get ⟨k, hk⟩) = .err e) :
    scrapeList doc ns = .err e := by
  induction ns generalizing k with
  | nil => exact absurd hk (by simp)
  | cons n ns ih =>
    cases k with
    | zero =>
      simp only [List.get] at hfail
      rw [scrapeList, hfail]
    | succ k =>
      obtain ⟨p, hp⟩ := hprev 0 (Nat.succ_pos k)
      simp only [List.get] at hp
      have htl : scrapeList doc ns = .err e :=
        ih k (Nat.lt_of_succ_lt_succ hk)
          (fun j hj => by simpa using hprev (j + 1) (Nat.succ_lt_succ hj))
          (by simpa using hfail)
      rw [scrapeList, hp]
      simp only
      rw [htl]

/-! ## Claims C1, C7, C9 on `scrape_papers` -/

/-- Claim C1: on every parsed search-results document, a successful
`scrape_papers` returns exactly one `Paper` per matched paper-summary
node under the results container, in document order (the k-th record
is the extraction of the k-th matched node), and every returned record
has `citation_count` set and `citers` unset. -/
theorem claim_c1_papers_order (doc : Document) (papers : List Paper)
    (h : scrape_papers doc = .ok papers) :
    papers.length = (paperNodes doc).length ∧
    (∀ k (hk : k < (paperNodes doc).length) (hk' : k < papers.length),
      scrape_paper_one doc ((paperNodes doc).get ⟨k, hk⟩) =
        .ok (papers.get ⟨k, hk'⟩)) ∧
    (∀ p ∈ papers, (∃ c, p.citation_count = some c) ∧ p.citers = none) := by
  unfold scrape_papers at h
  obtain ⟨hlen, hidx⟩ := scrapeList_ok doc (paperNodes doc) papers h
  refine ⟨hlen, hidx, ?_⟩
  intro p hp
  obtain ⟨⟨k, hk'⟩, hget⟩ := List.mem_iff_get.mp hp
  have hk : k < (paperNodes doc).length := by rw [← hlen]; exact hk'
  have := hidx k hk hk'
  rw [hget] at this
  exact scrape_paper_one_fields doc _ p this

/-- Witness for C1: the one-paper fixture page scrapes to exactly one
record, in order, with `citation_count` set and `citers` unset. -/
theorem claim_c1_papers_order_witness :
    scrape_papers exSearchDoc =
      .ok [Paper.mk ("Quantum theory".toList) 12345 (some 42) none] ∧
    (∀ p ∈ [Paper.mk ("Quantum theory".toList) 12345 (some 42) none],
      (∃ c, p.citation_count = some c) ∧ p.citers = none) :=
  ⟨rfl, (claim_c1_papers_order exSearchDoc _ rfl).2.2⟩

/-- Claim C7: if per-node extraction fails on the first failing
paper-summary node (all earlier nodes succeeding), `scrape_papers`
returns that failure for the whole call; and on the success path the
returned list is never shorter than the list of matched nodes. -/
theorem claim_c7_abort_on_failure :
    (∀ (doc : Document) (k : Nat) (e : ScrapeError)
      (hk : k < (paperNodes doc).length),
      (∀ j (hj : j < k),
        ∃ p, scrape_paper_one doc
          ((paperNodes doc).get ⟨j, Nat.lt_trans hj hk⟩) = .ok p) →
      scrape_paper_one doc ((paperNodes doc).get ⟨k, hk⟩) = .err e →
      scrape_papers doc = .err e)
  ∧ (∀ (doc : Document) (papers : List Paper),
      scrape_papers doc = .ok papers →
      papers.length = (paperNodes doc).length) := by
  constructor
  · intro doc k e hk hprev hfail
    unfold scrape_papers
    exact scrapeList_first_err doc (paperNodes doc) k e hk hprev hfail
  · intro doc papers h
    unfold scrape_papers at h
    exact (scrapeList_ok doc (paperNodes doc) papers h).1

/-- Witness for C7: on the fixture whose single paper block lacks a
footer, the per-node failure aborts the whole call. -/
theorem claim_c7_abort_on_failure_witness :
    (paperNodes exBadDoc).length = 1 ∧
    scrape_papers exBadDoc = .err .badHtml :=
  ⟨rfl,
    claim_c7_abort_on_failure.1 exBadDoc 0 .badHtml (by decide)
      (fun j hj => absurd hj (Nat.not_lt_zero j)) rfl⟩

/-- Claim C9: when no node matches the
results-container-descendant-paper-summary selector, `scrape_papers`
succeeds with the empty list rather than failing. -/
theorem claim_c9_no_container (doc : Document)
    (h : paperNodes doc = []) : scrape_papers doc = .ok [] := by
  unfold scrape_papers
  rw [h]
  rfl

/-- Witness for C9: a document with no results container at all. -/
theorem claim_c9_no_container_witness :
    paperNodes emptyDoc = [] ∧ scrape_papers emptyDoc = .ok [] :=
  ⟨rfl, claim_c9_no_container emptyDoc rfl⟩

/-! ## Claim C8 on the footer scan -/

theorem citationNodeIn_pred (doc : Document) (f c : Nat)
    (h : citationNodeIn doc f = some c) :
    ∃ url, attrOf doc c "href" = some url ∧ ∃ v, parse_id_from_url url = .ok v := by
  have hmem : c ∈ (selChildrenOf doc f).filter (citationPred doc) := by
    cases hl : (selChildrenOf doc f).filter (citationPred doc) with
    | nil => rw [citationNodeIn, hl] at h; exact Option.noConfusion h
    | cons x xs =>
      rw [citationNodeIn, hl] at h
      simp only [List.head?_cons, Option.some.injEq] at h
      subst h
      exact List.mem_cons_self x xs
  have hpred : citationPred doc c = true := List.of_mem_filter hmem
  unfold citationPred at hpred
  cases hattr : attrOf doc c "href" with
  | none => rw [hattr] at hpred; exact Bool.noConfusion hpred
  | some url =>
    rw [hattr] at hpred
    have hpred' : (match parse_id_from_url url with
        | Except.ok _ => true
        | Except.error _ => false) = true := hpred
    cases hparse : parse_id_from_url url with
    | error e => rw [hparse] at hpred'; exact Bool.noConfusion hpred'
    | ok v => exact ⟨url, rfl, v, hparse⟩

/-- Claim C8: the first footer child passing the
href-parses-as-identifier filter always carries an `href` attribute on
which `parse_id_from_url` succeeds, so the two `unwrap`ed extractions
after the filter in `scrape_id_and_citation` are unreachable failure
points: any panic of `scrape_id_and_citation` can only come from the
citation-count parse. -/
theorem claim_c8_filter_invariant :
    (∀ (doc : Document) (f c : Nat),
      citationNodeIn doc f = some c →
      ∃ url, attrOf doc c "href" = some url ∧
        ∃ v, parse_id_from_url url = .ok v)
  ∧ (∀ (doc : Document) (i : Nat),
      scrape_id_and_citation doc i = .crashed →
      ∃ f c, footerNode doc i = some f ∧ citationNodeIn doc f = some c ∧
        parse_citation_count (textContent doc c) = .crashed) := by
  constructor
  · exact citationNodeIn_pred
  · intro doc i h
    unfold scrape_id_and_citation at h
    cases hf : footerNode doc i with
    | none => rw [hf] at h; exact Outcome.noConfusion h
    | some f =>
      rw [hf] at h
      simp only at h
      cases hc : citationNodeIn doc f with
      | none => rw [hc] at h; exact Outcome.noConfusion h
      | some c =>
        rw [hc] at h
        simp only at h
        obtain ⟨url, hurl, v, hv⟩ := citationNodeIn_pred doc f c hc
        rw [hurl] at h
        simp only at h
        rw [hv] at h
        simp only at h
        cases hcount : parse_citation_count (textContent doc c) with
        | err e => rw [hcount] at h; exact Outcome.noConfusion h
        | ok count => rw [hcount] at h; exact Outcome.noConfusion h
        | crashed => exact ⟨f, c, rfl, hc, hcount⟩

/-- Witness for C8: on the fixture page, the filtered footer child (the
`Cited by` link) indeed carries a parseable `href`. -/
theorem claim_c8_filter_invariant_witness :
    citationNodeIn exSearchDoc 5 = some 6 ∧
    (∃ url, attrOf exSearchDoc 6 "href" = some url ∧
      ∃ v, parse_id_from_url url = .ok v) :=
  ⟨rfl, claim_c8_filter_invariant.1 exSearchDoc 5 6 rfl⟩

/-! ## Claims C6 and C10 on the citation document -/

theorem scrape_target_paper_shape (doc : Document) (t : Paper)
    (h : scrape_target_paper doc = .ok t) :
    t.citation_count = none ∧ t.citers = none := by
  unfold scrape_target_paper at h
  cases hn : headerTitleNode doc with
  | none => rw [hn] at h; exact Outcome.noConfusion h
  | some n =>
    rw [hn] at h
    simp only at h
    cases hattr : attrOf doc n "href" with
    | none => rw [hattr] at h; exact Outcome.noConfusion h
    | some url =>
      rw [hattr] at h
      simp only at h
      cases hparse : parse_id_from_url url with
      | error e => rw [hparse] at h; exact Outcome.noConfusion h
      | ok id =>
        rw [hparse] at h
        simp only [Outcome.ok.injEq] at h
        rw [← h]
        exact ⟨rfl, rfl⟩

/-- Claim C6: `scrape_target_paper_with_citers` is the composition of
`scrape_target_paper` and `scrape_papers` on the same document: when
both succeed it returns the target's title and id with
`citation_count` unset and `citers` set to the scraped list, and it
fails exactly when either of the two calls fails, with that failure. -/
theorem claim_c6_composition :
    (∀ (doc : Document) (t : Paper) (cs : List Paper),
      scrape_target_paper doc = .ok t →
      scrape_papers doc = .ok cs →
      scrape_target_paper_with_citers doc =
        .ok (Paper.mk t.title t.id none (some cs)))
  ∧ (∀ (doc : Document) (e : ScrapeError),
      scrape_target_paper doc = .err e →
      scrape_target_paper_with_citers doc = .err e)
  ∧ (∀ (doc : Document) (t : Paper) (e : ScrapeError),
      scrape_target_paper doc = .ok t →
      scrape_papers doc = .err e →
      scrape_target_paper_with_citers doc = .err e) := by
  refine ⟨?_, ?_, ?_⟩
  · intro doc t cs h1 h2
    have hcc : t.citation_count = none := (scrape_target_paper_shape doc t h1).1
    unfold scrape_target_paper_with_citers
    rw [h1]
    simp only
    rw [h2]
    simp only
    rw [hcc]
  · intro doc e h1
    unfold scrape_target_paper_with_citers
    rw [h1]
  · intro doc t e h1 h2
    unfold scrape_target_paper_with_citers
    rw [h1]
    simp only
    rw [h2]

/-- Witness for C6: the fixture citation page, whose target scrapes to
a record with `citation_count` unset, and whose (empty) citer list is
attached by the composition. -/
theorem claim_c6_composition_witness :
    scrape_target_paper exCitDoc =
      .ok (Paper.mk ("Electromagnetic potentials".toList) 777 none none) ∧
    scrape_papers exCitDoc = .ok [] ∧
    scrape_target_paper_with_citers exCitDoc =
      .ok (Paper.mk ("Electromagnetic potentials".toList) 777 none (some [])) :=
  ⟨rfl, rfl,
    claim_c6_composition.1 exCitDoc
      (Paper.mk ("Electromagnetic potentials".toList) 777 none none) [] rfl rfl⟩

/-- Claim C10: when the first node matching the header-title selector
(which admits both anchors and bare text) is a plain text node, it
carries no `href` attribute and `scrape_target_paper` fails with the
`BadHtml` (MissingField) error even though title text is present. -/
theorem claim_c10_text_header_fails (doc : Document) (n : Nat) (s : List Char)
    (h1 : headerTitleNode doc = some n)
    (h2 : dataOf doc n = some (.textNode s)) :
    scrape_target_paper doc = .err .badHtml := by
  have hattr : attrOf doc n "href" = none := by
    unfold attrOf
    rw [h2]
  unfold scrape_target_paper
  rw [h1]
  simp only
  rw [hattr]

/-- Witness for C10: the fixture citation page whose header title is an
unlinked text node. -/
theorem claim_c10_text_header_fails_witness :
    headerTitleNode exC10Doc = some 2 ∧
    dataOf exC10Doc 2 =
      some (.textNode ("Electromagnetic potentials".toList)) ∧
    scrape_target_paper exC10Doc = .err .badHtml :=
  ⟨rfl, rfl, claim_c10_text_header_fails exC10Doc 2 _ rfl rfl⟩

/-! ## Claim C5 on title extraction -/

/-- Counterexample to C5 as stated: in `exC5Doc` an anchor (node 3,
text `T`) exists under the title container (node 1, class `gs_rt`),
but because it is nested inside a `span` rather than being a direct
child of the container, branch 1 misses it and branch 2 discards the
`span`, so `scrape_title` returns the empty string, not the anchor's
text. -/
theorem claim_c5_counterexample :
    nameOf exC5Doc 3 = some "a" ∧
    (1 : Nat) ∈ ancChain exC5Doc 3 ∧
    pClass "gs_rt" exC5Doc 1 = true ∧
    textContent exC5Doc 3 = ['T'] ∧
    scrape_title exC5Doc 0 = [] ∧
    scrape_title exC5Doc 0 ≠ ['T'] := by
  refine ⟨rfl, by decide, rfl, rfl, rfl, by decide⟩

/-- Claim C5 (amended): title extraction is a total two-branch
fallback evaluated in fixed order; branch 1 fires only when an anchor
exists as a **direct child** of a title-container (`gs_rt`) node, in
which case the first such anchor's text is returned verbatim and
branch 2 is never evaluated; otherwise the direct children of the
title container(s) are enumerated, every child of the label (`span`)
element type is discarded, the text of the remaining children is
concatenated in document order and returned trimmed. Being a plain
function into strings, it returns a (possibly empty) string on every
input and never produces an error. -/
theorem claim_c5_title_fallback :
    (∀ (doc : Document) (i n : Nat),
      titleAnchor doc i = some n →
      scrape_title doc i = textContent doc n)
  ∧ (∀ (doc : Document) (i : Nat),
      titleAnchor doc i = none →
      scrape_title doc i =
        trimChars (((titleChildren doc i).map (textContent doc)).flatten))
  ∧ (∀ (doc : Document) (i j : Nat),
      j ∈ titleChildren doc i →
      nameOf doc j ≠ some "span" ∧
      ∃ g ∈ findUnder doc i (pClass "gs_rt"), j ∈ childrenOf doc g) := by
  refine ⟨?_, ?_, ?_⟩
  · intro doc i n h
    simp only [scrape_title, h]
  · intro doc i h
    simp only [scrape_title, h]
  · intro doc i j hj
    unfold titleChildren at hj
    have h2 := List.of_mem_filter hj
    have h1mem := List.mem_of_mem_filter hj
    have h1 := List.of_mem_filter h1mem
    constructor
    · cases hn : nameOf doc j with
      | none => intro hcontra; exact Option.noConfusion hcontra
      | some nm =>
        rw [hn] at h2
        have h2' : (nm != "span") = true := h2
        have hne : nm ≠ "span" := by simpa using h2'
        intro hcontra
        exact hne (Option.some.inj hcontra)
    · rw [List.any_eq_true] at h1
      obtain ⟨g, hg, hcont⟩ := h1
      refine ⟨g, hg, ?_⟩
      simpa using hcont

/-- Witness for the amended C5: branch 1 on the linked-title fixture
(the anchor is a direct child of the `gs_rt` container), branch 2 on
the nested-anchor fixture. -/
theorem claim_c5_title_fallback_witness :
    titleAnchor exSearchDoc 1 = some 3 ∧
    scrape_title exSearchDoc 1 = textContent exSearchDoc 3 ∧
    titleAnchor exC5Doc 0 = none ∧
    scrape_title exC5Doc 0 =
      trimChars (((titleChildren exC5Doc 0).map (textContent exC5Doc)).flatten) :=
  ⟨rfl, claim_c5_title_fallback.1 exSearchDoc 1 3 rfl,
    rfl, claim_c5_title_fallback.2.1 exC5Doc 0 rfl⟩
